import Mathlib

/-!
Verification development for the wave-equation run-orchestration and
diagnostics subsystem (Python sources: config.py, runner.py, visualize.py).

Modelling conventions:
* Python floats are modelled as exact rationals (ℚ); transcendental results
  (math.log, numpy sqrt) live in ℝ.  Rounding behaviour of IEEE doubles is
  outside the model.
* Python dicts are modelled as insertion-ordered association lists
  `List (String × Value)` with first-match lookup; `dictSet` updates an
  existing key in place and appends otherwise, matching CPython semantics.
* Python exceptions are modelled as `Except` error values; the error
  constructors record which Python exception/message they stand for.
* File names and labels are modelled as `List Char` so that prefix/suffix
  reasoning is structural.
* Runtime services that are not part of this repository (str()/%-formatting
  of floats, the filesystem, subprocess execution) enter as explicit oracle
  parameters; everything computed by the repository's own code is modelled
  directly from that code.
-/

namespace WaveSolver

/-- Dynamic Python value, covering the value shapes that flow through the
parameter dictionaries of config.py and runner.py.  `Value.none` is Python's
`None` (also used for a missing key, as `dict.get` returns `None`).  The only
list-valued payload entry is the numeric profile `c_profile`, so list values
carry rationals. -/
inductive Value where
  | none
  | bool (b : Bool)
  | int (n : ℤ)
  | float (q : ℚ)
  | str (s : String)
  | list (elems : List ℚ)
deriving DecidableEq

/-- Python truthiness (`bool(v)`) for the modelled value shapes. -/
def pyTruthy : Value → Bool
  | Value.none => false
  | Value.bool b => b
  | Value.int n => decide (n ≠ 0)
  | Value.float q => decide (q ≠ 0)
  | Value.str s => decide (s ≠ "")
  | Value.list l => decide (l ≠ [])

/-- First-match lookup in an association-list dictionary (CPython dicts have
unique keys, so first match is the match). -/
def dictGet? : List (String × Value) → String → Option Value
  | [], _ => Option.none
  | kv :: rest, k => if kv.1 = k then some kv.2 else dictGet? rest k

/-- `d.get(k)`: lookup defaulting to `None`, as in Python. -/
def dictGetV (d : List (String × Value)) (k : String) : Value :=
  match dictGet? d k with
  | some v => v
  | Option.none => Value.none

/-- `d.get(k, w)`: lookup with an explicit default. -/
def dictGetD (d : List (String × Value)) (k : String) (w : Value) : Value :=
  match dictGet? d k with
  | some v => v
  | Option.none => w

/-- `d[k] = v`: update the key in place if present (CPython keeps the original
insertion position), otherwise append the new binding. -/
def dictSet (d : List (String × Value)) (k : String) (v : Value) :
    List (String × Value) :=
  if d.any (fun kv => decide (kv.1 = k)) then
    d.map (fun kv => if kv.1 = k then (k, v) else kv)
  else d ++ [(k, v)]

/-- `d.setdefault(k, w)`: insert `w` only when the key is absent. -/
def dictSetdefault (d : List (String × Value)) (k : String) (w : Value) :
    List (String × Value) :=
  if (dictGet? d k).isSome then d else d ++ [(k, w)]

/-- Sequential assignment of a list of key/value pairs (`for k, v in ov:
d[k] = v`). -/
def dictSetAll (d : List (String × Value)) (ov : List (String × Value)) :
    List (String × Value) :=
  ov.foldl (fun acc kv => dictSet acc kv.1 kv.2) d

/-- Errors raised by config.py.  `keyError` is the `KeyError` of
`get_scenario_defaults`; `typeError` is the `TypeError` that
`dataclasses.replace` raises when a keyword is not a dataclass field. -/
inductive PyErr where
  | keyError
  | typeError
deriving DecidableEq

/-- config.py `ScenarioDefaults` (frozen dataclass): default numeric and
physical parameters of one scenario. -/
structure ScenarioDefaults where
  scenario_id : ℤ
  nx : ℤ
  dx : ℚ
  L : ℚ
  wave_speed : ℚ
  c_max : ℚ
  cfl : ℚ
  t_final : ℚ
  gamma : ℚ
  output_type : String
  output_frequency : ℤ
  logging_enabled : Bool
  c_profile : List ℚ
deriving DecidableEq

/-- `ScenarioDefaults.to_dict` (`dataclasses.asdict`): the fields as an
ordered dictionary, in declaration order. -/
def ScenarioDefaults.to_dict (d : ScenarioDefaults) : List (String × Value) :=
  [("scenario_id", Value.int d.scenario_id),
   ("nx", Value.int d.nx),
   ("dx", Value.float d.dx),
   ("L", Value.float d.L),
   ("wave_speed", Value.float d.wave_speed),
   ("c_max", Value.float d.c_max),
   ("cfl", Value.float d.cfl),
   ("t_final", Value.float d.t_final),
   ("gamma", Value.float d.gamma),
   ("output_type", Value.str d.output_type),
   ("output_frequency", Value.int d.output_frequency),
   ("logging_enabled", Value.bool d.logging_enabled),
   ("c_profile", Value.list d.c_profile)]

/-- The dataclass field names of `ScenarioDefaults`, in order. -/
def scenarioFieldNames : List String :=
  ["scenario_id", "nx", "dx", "L", "wave_speed", "c_max", "cfl", "t_final",
   "gamma", "output_type", "output_frequency", "logging_enabled", "c_profile"]

/-- The attribute names `hasattr` answers `True` for on a `ScenarioDefaults`
instance that are relevant to override keys: the dataclass fields plus the
`to_dict` method.  (Double-underscore attributes inherited from Python's
object protocol also exist on the instance; such dunder names are outside
the modelled key space, which covers ordinary payload keys.) -/
def scenarioAttrNames : List String := scenarioFieldNames ++ ["to_dict"]

/-- Scenario 1 defaults from `_build_defaults` (`base_dx = 0.01`,
`base_L = 2.0`, `base_nx = int(base_L / base_dx)` which is 200 in IEEE
double arithmetic, `base_c = 1.0`, `base_cfl = 0.9`). -/
def defaults1 : ScenarioDefaults :=
  { scenario_id := 1, nx := 200, dx := 1/100, L := 2, wave_speed := 1,
    c_max := 1, cfl := 9/10, t_final := 1, gamma := 0, output_type := "csv",
    output_frequency := 10, logging_enabled := false, c_profile := [] }

/-- Scenario 2 defaults (identical numbers to scenario 1, Neumann case). -/
def defaults2 : ScenarioDefaults :=
  { scenario_id := 2, nx := 200, dx := 1/100, L := 2, wave_speed := 1,
    c_max := 1, cfl := 9/10, t_final := 1, gamma := 0, output_type := "csv",
    output_frequency := 10, logging_enabled := false, c_profile := [] }

/-- Scenario 3 defaults (variable speed: `c_max = 1.5`, `cfl = 0.8`). -/
def defaults3 : ScenarioDefaults :=
  { scenario_id := 3, nx := 200, dx := 1/100, L := 2, wave_speed := 1,
    c_max := 3/2, cfl := 4/5, t_final := 1, gamma := 0, output_type := "csv",
    output_frequency := 10, logging_enabled := false, c_profile := [] }

/-- Scenario 4 defaults (damping test: `cfl = 0.7`, `gamma = 0.05`). -/
def defaults4 : ScenarioDefaults :=
  { scenario_id := 4, nx := 200, dx := 1/100, L := 2, wave_speed := 1,
    c_max := 1, cfl := 7/10, t_final := 1, gamma := 1/20, output_type := "csv",
    output_frequency := 10, logging_enabled := false, c_profile := [] }

/-- config.py `get_scenario_defaults`: returns the scenario's defaults, or
raises `KeyError` for an id outside 1–4. -/
def get_scenario_defaults (scenario_id : ℤ) : Except PyErr ScenarioDefaults :=
  if scenario_id = 1 then Except.ok defaults1
  else if scenario_id = 2 then Except.ok defaults2
  else if scenario_id = 3 then Except.ok defaults3
  else if scenario_id = 4 then Except.ok defaults4
  else Except.error PyErr.keyError

/-- config.py `compute_dt`: CFL-derived time step.  Scenario 3 divides by the
maximum wave speed, every other scenario by the provided wave speed.
(Python would raise `ZeroDivisionError` for a zero divisor; rational division
here is the usual total division of the shallow embedding.) -/
def compute_dt (scenario_id : ℤ) (dx cfl wave_speed c_max : ℚ) : ℚ :=
  if scenario_id = 3 then (cfl * dx) / c_max
  else (cfl * dx) / wave_speed

/-- config.py `build_payload`: fetch defaults, apply the overrides whose keys
are attributes of the defaults object via `dataclasses.replace` (which raises
`TypeError` when such a key is not a dataclass field — e.g. the method name
`to_dict`), take `to_dict`, force the schema-level keys, then write every
override into the payload and finish with `setdefault` placeholders. -/
def build_payload (scenario_id : ℤ) (overrides : List (String × Value)) :
    Except PyErr (List (String × Value)) :=
  match get_scenario_defaults scenario_id with
  | Except.error e => Except.error e
  | Except.ok defaults =>
    let filtered := overrides.filter (fun kv => scenarioAttrNames.contains kv.1)
    if filtered.all (fun kv => scenarioFieldNames.contains kv.1) then
      let merged := dictSetAll defaults.to_dict filtered
      let ot := dictGetD merged ("output_type") (Value.str ("ascii"))
      let ofreq := dictGetD merged ("output_frequency") (Value.int 1)
      let le := Value.bool (pyTruthy (dictGetD merged ("logging_enabled") (Value.bool false)))
      let cp := dictGetD merged ("c_profile") (Value.list [])
      let p1 := dictSet merged ("schema_version") (Value.str ("1.0.0"))
      let p2 := dictSet p1 ("output_type") ot
      let p3 := dictSet p2 ("output_frequency") ofreq
      let p4 := dictSet p3 ("snapshot_freq") ofreq
      let p5 := dictSet p4 ("logging_enabled") le
      let p6 := dictSet p5 ("c_profile") cp
      let p7 := dictSetAll p6 overrides
      let p8 := dictSetdefault p7 ("gamma") (Value.float 0)
      let p9 := dictSetdefault p8 ("c_profile") (Value.list [])
      Except.ok p9
    else Except.error PyErr.typeError

/-! ### visualize.py : diagnostics -/

/-- Failure kinds of the diagnostics routines.  All are `ValueError` in
Python; the constructors distinguish the documented conditions:
`shapeMismatch` = "u and u_ref must have the same shape",
`emptyReduction` = numpy's "zero-size array to reduction operation maximum"
raised by `np.max` on an empty difference array,
`insufficientData` = "Need at least two points to estimate convergence rate",
`invalidError` = "Errors must be positive for log-slope",
`mathDomain` = `math.log` domain error on a non-positive argument,
`zeroDivision` = float division by zero, which in exact arithmetic happens
iff the last two step sizes coincide. -/
inductive DiagErr where
  | shapeMismatch
  | emptyReduction
  | insufficientData
  | invalidError
  | mathDomain
  | zeroDivision
deriving DecidableEq

/-- visualize.py `ErrorMetrics`: container for the three error norms. -/
structure ErrorMetrics where
  l1 : ℚ
  l2 : ℝ
  linf : ℚ

/-- `np.max` of a non-empty list (the empty case is unreachable: the caller
errors out first, as numpy raises on an empty reduction). -/
def maxList : List ℚ → ℚ
  | [] => 0
  | x :: xs => xs.foldl max x

/-- visualize.py `compute_error_metrics`: shape check, then
`l1 = mean |u - u_ref|`, `l2 = sqrt(mean (u - u_ref)^2)`,
`linf = max |u - u_ref|`.  On empty (equal-shape) inputs `np.max` raises,
modelled by `emptyReduction`. -/
noncomputable def compute_error_metrics (u uRef : List ℚ) :
    Except DiagErr ErrorMetrics :=
  if u.length ≠ uRef.length then Except.error DiagErr.shapeMismatch
  else if u.length = 0 then Except.error DiagErr.emptyReduction
  else
    let diff := (u.zip uRef).map (fun p => |p.1 - p.2|)
    Except.ok
      { l1 := diff.sum / (u.length : ℚ)
      , l2 := Real.sqrt (((diff.map (fun d => d ^ 2)).sum / (u.length : ℚ) : ℚ) : ℝ)
      , linf := maxList diff }

/-- visualize.py `convergence_rate`: requires two entries in each sequence,
reads the last two entries of each (`dx[-2], dx[-1], errors[-2], errors[-1]`),
checks only those two errors for positivity, and returns the log-log slope.
`mathDomain`/`zeroDivision` model the `math.log` domain error and the float
division by zero that the return expression can raise. -/
noncomputable def convergence_rate (dx errors : List ℚ) : Except DiagErr ℝ :=
  if dx.length < 2 ∨ errors.length < 2 then Except.error DiagErr.insufficientData
  else
    let x1 := dx.getD (dx.length - 2) 0
    let x2 := dx.getD (dx.length - 1) 0
    let e1 := errors.getD (errors.length - 2) 0
    let e2 := errors.getD (errors.length - 1) 0
    if e1 ≤ 0 ∨ e2 ≤ 0 then Except.error DiagErr.invalidError
    else if x1 ≤ 0 ∨ x2 ≤ 0 then Except.error DiagErr.mathDomain
    else if x1 = x2 then Except.error DiagErr.zeroDivision
    else Except.ok ((Real.log (e2 : ℝ) - Real.log (e1 : ℝ)) /
                    (Real.log (x2 : ℝ) - Real.log (x1 : ℝ)))

/-! ### runner.py : labels, artifact renaming, scenario extraction,
solver invocation -/

/-- The glob pattern prefix of snapshot files. -/
def snapPre : List Char := ("snapshot_").toList

/-- The `.csv` extension. -/
def csvExt : List Char := (".csv").toList

/-- The fixed name of the solver's energy log. -/
def energyName : List Char := ("energy.csv").toList

/-- Suffix attached when the energy log is renamed. -/
def energyTail : List Char := ("_energy.csv").toList

/-- The `_snapshot_` connective used in renamed snapshot files. -/
def snapMid : List Char := ("_snapshot_").toList

/-- Does a file name match the glob `snapshot_*.csv`? -/
def globSnapshot (f : List Char) : Bool :=
  snapPre.isPrefixOf f && csvExt.isSuffixOf f

/-- Target name of a snapshot rename: `{label}_snapshot_{suffix}.csv` where
`suffix` is the stem (name minus `.csv`) after its first underscore — for a
glob match that is the stem from position 9 on. -/
def snapTarget (label f : List Char) : List Char :=
  label ++ snapMid ++ (f.take (f.length - 4)).drop 9 ++ csvExt

/-- Per-file effect of the snapshot loop of `_rename_run_outputs`: glob
matches already starting with `{label}_snapshot_` are skipped, other glob
matches are renamed to `snapTarget`. -/
def snapRename (label f : List Char) : List Char :=
  if globSnapshot f then
    if (label ++ snapMid).isPrefixOf f then f else snapTarget label f
  else f

/-- The rename applied to the energy log: `energy.csv` becomes
`{label}_energy.csv`, every other name is untouched. -/
def energySubst (label f : List Char) : List Char :=
  if f = energyName then label ++ energyTail else f

/-- Energy-log step of `_rename_run_outputs`: if `energy.csv` exists and its
name does not start with the run label, rename it to `{label}_energy.csv`. -/
def energyPass (label : List Char) (files : List (List Char)) :
    List (List Char) :=
  if files.any (fun f => decide (f = energyName)) && !(label.isPrefixOf energyName) then
    files.map (energySubst label)
  else files

/-- runner.py `_rename_run_outputs` on the directory's file-name listing:
first the snapshot loop, then the energy-log rename. -/
def renameRunOutputs (label : List Char) (files : List (List Char)) :
    List (List Char) :=
  energyPass label (files.map (snapRename label))

/-- Characters the sanitizer keeps: `[A-Za-z0-9_-]`. -/
def isLabelChar (c : Char) : Bool :=
  ('A' ≤ c && c ≤ 'Z') || ('a' ≤ c && c ≤ 'z') || ('0' ≤ c && c ≤ '9') ||
    c == '_' || c == '-'

/-- `re.sub(r"[^A-Za-z0-9_-]", "-", s)`. -/
def subBad (s : List Char) : List Char :=
  s.map (fun c => if isLabelChar c then c else '-')

/-- `re.sub(r"-{2,}", "-", s)`: every maximal run of hyphens becomes a single
hyphen (the recursion keeps the last hyphen of each run, which yields the
same string). -/
def collapseDashes : List Char → List Char
  | [] => []
  | [c] => [c]
  | c :: c₂ :: rest =>
    if c = '-' ∧ c₂ = '-' then collapseDashes (c₂ :: rest)
    else c :: collapseDashes (c₂ :: rest)

/-- `s.strip("-")`: drop hyphens from both ends. -/
def stripDashes (s : List Char) : List Char :=
  ((s.dropWhile (fun c => c == '-')).reverse.dropWhile (fun c => c == '-')).reverse

/-- The fallback label. -/
def runToken : List Char := ("run").toList

/-- runner.py `_sanitize_token`: substitute, collapse, strip, default. -/
def sanitize_token (s : List Char) : List Char :=
  let t := stripDashes (collapseDashes (subBad s))
  if t = [] then runToken else t

/-- runner.py `_float_token`.  `fmt` is the rendering oracle standing for
`float(value)` followed by `f"{num:.4g}"`: `some cs` means the conversion
succeeded and produced the digit string `cs`; `none` means `float()` raised
(`TypeError`/`ValueError`), in which case the token is `"x"`.  The two
`str.replace` calls become a character map since both patterns are single
characters. -/
def float_token (fmt : Value → Option (List Char)) (v : Value) : List Char :=
  match fmt v with
  | some cs => cs.map (fun c => if c = '.' then 'p' else if c = '-' then 'm' else c)
  | Option.none => ("x").toList

/-- Python `a or b` on values. -/
def pyOrV (a b : Value) : Value := if pyTruthy a then a else b

/-- runner.py `_build_run_label`.  `pyStr` is the oracle for Python `str()`
inside the f-strings (its output is unconstrained, as the label properties
hold for any rendering).  Part order and the presence conditions follow the
source: `scenario_id` if not `None`, `nx` if truthy, `dx`/`dt` if not
`None`, frequency (`output_frequency or snapshot_freq`) if truthy. -/
def build_run_label (pyStr : Value → List Char)
    (fmt : Value → Option (List Char)) (params : List (String × Value)) :
    List Char :=
  let scenarioPart := match dictGetV params ("scenario_id") with
    | Value.none => []
    | v => [('s' :: pyStr v)]
  let nxV := dictGetV params ("nx")
  let nxPart := if pyTruthy nxV then [("nx").toList ++ pyStr nxV] else []
  let dxPart := match dictGetV params ("dx") with
    | Value.none => []
    | v => [("dx").toList ++ float_token fmt v]
  let dtPart := match dictGetV params ("dt") with
    | Value.none => []
    | v => [("dt").toList ++ float_token fmt v]
  let freqV := pyOrV (dictGetV params ("output_frequency"))
    (dictGetV params ("snapshot_freq"))
  let freqPart := if pyTruthy freqV then [('f' :: pyStr freqV)] else []
  let parts := scenarioPart ++ nxPart ++ dxPart ++ dtPart ++ freqPart
  let joined := List.intercalate [('-' : Char)] parts
  let label := if joined = [] then runToken else joined
  sanitize_token label

/-- Absence of two adjacent hyphens (the separator the sanitizer inserts and
collapses). -/
def noDoubleDash : List Char → Bool
  | [] => true
  | [_] => true
  | a :: b :: rest => !(a == '-' && b == '-') && noDoubleDash (b :: rest)

/-- `subprocess.CalledProcessError`: carries the attempted command line and
the captured streams; `run_solver` chains it as the `__cause__` of the
`RuntimeError` it raises. -/
structure CalledProcessError where
  cmd : List (List Char)
  returncode : ℤ
  stdout : List Char
  stderr : List Char
deriving DecidableEq

/-- Outcome of the blocking `subprocess.run` of the solver: exit code and the
captured streams (`capture_output=True, text=True`). -/
structure ProcResult where
  exitCode : ℤ
  stdout : List Char
  stderr : List Char
deriving DecidableEq

/-- Errors raised by runner.py's `run_solver` path:
`scenarioRequired` = ValueError "scenario_id is required …",
`scenarioNotInt` = ValueError "scenario_id must be an integer …",
`noExecutable` = ValueError "No executable configured for scenario …",
`resolveFailed` = FileNotFoundError of `_resolve_executable`/`_ensure_executable`
(carrying the attempted candidates), `buildFailed` = RuntimeError of
`_build_executable` (carrying command and streams), `processFailure` =
RuntimeError "Fortran solver failed …" whose message embeds the captured
stdout/stderr and whose `__cause__` is the `CalledProcessError`. -/
inductive RunError where
  | scenarioRequired
  | scenarioNotInt
  | noExecutable (scenario_id : ℤ)
  | resolveFailed (tried : List (List Char))
  | buildFailed (cmd : List (List Char)) (stdout stderr : List Char)
  | processFailure (stdout stderr : List Char) (cause : CalledProcessError)
deriving DecidableEq

/-- Value of the digit string (base 10). -/
def digitsVal (l : List Char) : ℕ :=
  l.foldl (fun acc c => 10 * acc + (c.toNat - 48)) 0

/-- Parse a non-empty all-digit string. -/
def parseDigits (l : List Char) : Option ℕ :=
  if l ≠ [] ∧ l.all (fun c => c.isDigit) then some (digitsVal l)
  else Option.none

/-- Python `int(str)` on plain integer literals with an optional sign
(surrounding whitespace and digit-group underscores, which CPython also
accepts, are outside the modelled string space). -/
def parseIntStr (s : String) : Option ℤ :=
  match s.toList with
  | '-' :: rest => (parseDigits rest).map (fun n => -(n : ℤ))
  | '+' :: rest => (parseDigits rest).map (fun n => (n : ℤ))
  | l => (parseDigits l).map (fun n => (n : ℤ))

/-- Truncation of a rational toward zero, as Python `int(float)`. -/
def ratTrunc (q : ℚ) : ℤ :=
  if q.num < 0 then -(Int.ofNat (q.num.natAbs / q.den))
  else Int.ofNat (q.num.natAbs / q.den)

/-- Python `int(candidate)` for the modelled value shapes; `TypeError` and
`ValueError` are both re-raised by `_extract_scenario_id` as its ValueError,
modelled `scenarioNotInt`.  (`int(None)` is unreachable: the caller checks
for `None` first.) -/
def pyToInt : Value → Except RunError ℤ
  | Value.bool b => Except.ok (if b then 1 else 0)
  | Value.int n => Except.ok n
  | Value.float q => Except.ok (ratTrunc q)
  | Value.str s =>
    match parseIntStr s with
    | some n => Except.ok n
    | Option.none => Except.error RunError.scenarioNotInt
  | Value.list _ => Except.error RunError.scenarioNotInt
  | Value.none => Except.error RunError.scenarioNotInt

/-- runner.py `_extract_scenario_id`: `params.get("scenario_id") or
params.get("scenario")`, `None` check, then `int(...)`. -/
def extract_scenario_id (params : List (String × Value)) :
    Except RunError ℤ :=
  match pyOrV (dictGetV params ("scenario_id")) (dictGetV params ("scenario")) with
  | Value.none => Except.error RunError.scenarioRequired
  | v => pyToInt v

/-- runner.py `SCENARIO_EXECUTABLES`. -/
def scenarioExecutables : List (ℤ × List Char) :=
  [(1, ("solver_dirichlet.exe").toList), (2, ("solver_neumann.exe").toList)]

/-- Lookup in an executable map. -/
def lookupExe : List (ℤ × List Char) → ℤ → Option (List Char)
  | [], _ => Option.none
  | kv :: rest, k => if kv.1 = k then some kv.2 else lookupExe rest k

/-- `exe_map = executable_map or SCENARIO_EXECUTABLES; executable =
executable_override or exe_map.get(scenario_id)` — Python truthiness: an
absent or empty map falls back to the default table, an absent or empty
override falls back to the map lookup. -/
def selectExecutable (executableMap : Option (List (ℤ × List Char)))
    (executableOverride : Option (List Char)) (sid : ℤ) :
    Option (List Char) :=
  let m := match executableMap with
    | some m => if m = [] then scenarioExecutables else m
    | Option.none => scenarioExecutables
  match executableOverride with
  | some e => if e = [] then lookupExe m sid else some e
  | Option.none => lookupExe m sid

/-- Outcome of `_ensure_executable` (filesystem search plus optional
auto-build), supplied as an oracle since it is pure filesystem/toolchain
interaction: a resolved path, a `FileNotFoundError` with the attempted
candidates, or a build `RuntimeError` with command and streams. -/
inductive ResolveOutcome where
  | ok (path : List Char)
  | fileNotFound (tried : List (List Char))
  | buildError (cmd : List (List Char)) (stdout stderr : List Char)
deriving DecidableEq

/-- The success dictionary `run_solver` returns (its fixed keys). -/
structure RunResult where
  status : List Char
  schema_version : List Char
  run_label : List Char
  input_path : List Char
  run_dir : List Char
  stdout : List Char
  stderr : List Char
  artifacts : List (List Char)
deriving DecidableEq

/-- `SCHEMA_VERSION`. -/
def schemaVersionChars : List Char := ("1.0.0").toList

/-- The run directory name `outputs/run-<label>-<timestamp>` (the timestamp
string is an oracle for `datetime.now().strftime(...)`). -/
def runDirOf (label timestamp : List Char) : List Char :=
  ("outputs/run-").toList ++ label ++ ('-' :: timestamp)

/-- The serialized payload path `<run_dir>/input.json`. -/
def inputPathOf (runDir : List Char) : List Char :=
  runDir ++ ("/input.json").toList

/-- The literal status string. -/
def successChars : List Char := ("success").toList

/-- runner.py `run_solver`.  Filesystem and process effects enter as
oracles: `timestamp` (directory naming), `resolve` (executable resolution /
auto-build outcome), `proc` (the solver process's exit code and captured
streams), `produced` (the file names present in the run directory when the
process exits, including `input.json`).  Everything else — label building,
scenario extraction, executable selection, outcome classification, artifact
renaming — is the source's own logic. -/
def run_solver (pyStr : Value → List Char)
    (fmt : Value → Option (List Char))
    (params : List (String × Value))
    (executableMap : Option (List (ℤ × List Char)))
    (executableOverride : Option (List Char))
    (timestamp : List Char)
    (resolve : ResolveOutcome)
    (proc : ProcResult)
    (produced : List (List Char)) : Except RunError RunResult :=
  let runLabel := build_run_label pyStr fmt params
  let runDir := runDirOf runLabel timestamp
  let inputPath := inputPathOf runDir
  match extract_scenario_id params with
  | Except.error e => Except.error e
  | Except.ok sid =>
    match selectExecutable executableMap executableOverride sid with
    | Option.none => Except.error (RunError.noExecutable sid)
    | some _exe =>
      match resolve with
      | ResolveOutcome.fileNotFound tried =>
        Except.error (RunError.resolveFailed tried)
      | ResolveOutcome.buildError cmd out err =>
        Except.error (RunError.buildFailed cmd out err)
      | ResolveOutcome.ok solverPath =>
        if proc.exitCode ≠ 0 then
          Except.error (RunError.processFailure proc.stdout proc.stderr
            { cmd := [solverPath, inputPath], returncode := proc.exitCode,
              stdout := proc.stdout, stderr := proc.stderr })
        else
          Except.ok
            { status := successChars, schema_version := schemaVersionChars,
              run_label := runLabel, input_path := inputPath,
              run_dir := runDir, stdout := proc.stdout, stderr := proc.stderr,
              artifacts := renameRunOutputs runLabel produced }

/-- Did the run succeed? -/
def runIsOk : Except RunError RunResult → Bool
  | Except.ok _ => true
  | Except.error _ => false

/-- The rational 0.01, built as a raw fraction so that kernel reduction
works on it. -/
def qDx : ℚ := ⟨1, 100, by norm_num, by norm_num⟩

/-- The rational -0.015 as a raw fraction. -/
def qDt : ℚ := ⟨-3, 200, by norm_num, by norm_num⟩

/-- Concrete rendering oracle for `f"{num:.4g}"` at the example inputs
(CPython: `f"{0.01:.4g}" == "0.01"`, `f"{-0.015:.4g}" == "-0.015"`),
recognising the values by numerator/denominator. -/
def fmtEx : Value → Option (List Char)
  | Value.float q =>
    if q.num = 1 ∧ q.den = 100 then some (("0.01").toList)
    else if q.num = -3 ∧ q.den = 200 then some (("-0.015").toList)
    else Option.none
  | _ => Option.none

/-- Concrete rendering oracle for Python `str()` at the example inputs. -/
def pyStrEx : Value → List Char
  | Value.int n => if n = 1 then ("1").toList else ("int").toList
  | _ => ("obj").toList

/-- Key lookup through a `build_payload` result (`none` on error). -/
def payloadKeyValue (r : Except PyErr (List (String × Value))) (k : String) :
    Option Value :=
  match r with
  | Except.ok p => dictGet? p k
  | Except.error _ => Option.none

/-- Did `build_payload` succeed? -/
def payloadIsOk : Except PyErr (List (String × Value)) → Bool
  | Except.ok _ => true
  | Except.error _ => false

/-- Are all the given keys present in a `build_payload` result? -/
def payloadHasKeys (r : Except PyErr (List (String × Value)))
    (ks : List String) : Bool :=
  match r with
  | Except.ok p => ks.all (fun k => (dictGet? p k).isSome)
  | Except.error _ => false

end WaveSolver

namespace WaveSolver

/-! ### Dictionary lemmas -/

theorem dictGet?_append (d l : List (String × Value)) (k : String) :
    dictGet? (d ++ l) k =
      (match dictGet? d k with
       | some v => some v
       | Option.none => dictGet? l k) := by
  induction d with
  | nil => simp [dictGet?]
  | cons kv rest ih =>
    by_cases h : kv.1 = k <;> simp [dictGet?, h, ih]

theorem dictGet?_eq_none_of_any_eq_false {d : List (String × Value)}
    {k : String} (h : d.any (fun kv => decide (kv.1 = k)) = false) :
    dictGet? d k = Option.none := by
  induction d with
  | nil => rfl
  | cons kv rest ih =>
    simp only [List.any_cons, Bool.or_eq_false_iff, decide_eq_false_iff_not] at h
    simp [dictGet?, h.1, ih (by simpa using h.2)]

theorem dictGet?_mapset (d : List (String × Value)) (k : String) (v : Value) :
    dictGet? (d.map (fun kv => if kv.1 = k then (k, v) else kv)) k =
      if d.any (fun kv => decide (kv.1 = k)) then some v else Option.none := by
  induction d with
  | nil => simp [dictGet?]
  | cons kv rest ih =>
    by_cases h : kv.1 = k
    · simp [dictGet?, h, ih]
    · have hdec : (decide (kv.1 = k)) = false := decide_eq_false_iff_not.mpr h
      rw [List.any_cons, hdec]
      cases hx : rest.any (fun kv => decide (kv.1 = k)) <;>
        simp [dictGet?, h, ih, hx]

theorem dictGet?_mapset_ne (d : List (String × Value)) {k k' : String}
    (v : Value) (h : k' ≠ k) :
    dictGet? (d.map (fun kv => if kv.1 = k then (k, v) else kv)) k' =
      dictGet? d k' := by
  induction d with
  | nil => rfl
  | cons kv rest ih =>
    by_cases hh : kv.1 = k
    · simp [dictGet?, hh, Ne.symm h, ih]
    · simp [dictGet?, hh, ih]

theorem dictGet?_set (d : List (String × Value)) (k k' : String) (v : Value) :
    dictGet? (dictSet d k v) k' =
      if k' = k then some v else dictGet? d k' := by
  unfold dictSet
  by_cases hk : k' = k
  · subst hk
    cases h : d.any (fun kv => decide (kv.1 = k')) with
    | true => simp [h, dictGet?_mapset]
    | false =>
      simp [h, dictGet?_append, dictGet?_eq_none_of_any_eq_false h, dictGet?]
  · cases h : d.any (fun kv => decide (kv.1 = k)) with
    | true => simp [h, hk, dictGet?_mapset_ne d v hk]
    | false =>
      rw [if_neg hk]
      simp only [h, Bool.false_eq_true, if_false]
      rw [dictGet?_append]
      cases h2 : dictGet? d k' <;> simp [dictGet?, Ne.symm hk]

theorem dictGet?_setdefault (d : List (String × Value)) (k k' : String)
    (w : Value) :
    dictGet? (dictSetdefault d k w) k' =
      if k' = k then some ((dictGet? d k).getD w) else dictGet? d k' := by
  unfold dictSetdefault
  by_cases hk : k' = k
  · subst hk
    cases h : dictGet? d k' with
    | some v => simp [h]
    | none => simp [h, dictGet?_append, dictGet?]
  · cases h : (dictGet? d k).isSome with
    | true => simp [h, hk]
    | false =>
      simp only [h, Bool.false_eq_true, if_false, if_neg hk]
      rw [dictGet?_append]
      cases h2 : dictGet? d k' <;> simp [dictGet?, Ne.symm hk]

theorem dictSetAll_cons (d : List (String × Value)) (kv : String × Value)
    (rest : List (String × Value)) :
    dictSetAll d (kv :: rest) = dictSetAll (dictSet d kv.1 kv.2) rest := rfl

theorem dictGet?_setAll_not_mem {ov : List (String × Value)} {k : String}
    (h : k ∉ ov.map Prod.fst) (d : List (String × Value)) :
    dictGet? (dictSetAll d ov) k = dictGet? d k := by
  induction ov generalizing d with
  | nil => rfl
  | cons kv rest ih =>
    simp only [List.map_cons, List.mem_cons] at h
    push_neg at h
    rw [dictSetAll_cons, ih h.2, dictGet?_set]
    simp [h.1]

theorem dictGet?_setAll_mem {ov : List (String × Value)} {k : String}
    {v : Value} (hnd : (ov.map Prod.fst).Nodup) (hmem : (k, v) ∈ ov)
    (d : List (String × Value)) :
    dictGet? (dictSetAll d ov) k = some v := by
  induction ov generalizing d with
  | nil => cases hmem
  | cons kv rest ih =>
    simp only [List.map_cons, List.nodup_cons] at hnd
    rcases List.mem_cons.mp hmem with h | h
    · rw [dictSetAll_cons]
      have hk : kv.1 = k := by rw [← h]
      have hnotin : k ∉ rest.map Prod.fst := by rw [← hk]; exact hnd.1
      rw [dictGet?_setAll_not_mem hnotin, hk, dictGet?_set]
      have hv : kv.2 = v := by rw [← h]
      simp [hv]
    · exact ih hnd.2 h _

theorem isSome_set_mono {d : List (String × Value)} {k' : String}
    (k : String) (v : Value) (h : (dictGet? d k').isSome = true) :
    (dictGet? (dictSet d k v) k').isSome = true := by
  rw [dictGet?_set]
  by_cases hk : k' = k <;> simp [hk, h]

theorem isSome_setAll_mono {d : List (String × Value)} {k' : String}
    (ov : List (String × Value)) (h : (dictGet? d k').isSome = true) :
    (dictGet? (dictSetAll d ov) k').isSome = true := by
  induction ov generalizing d with
  | nil => exact h
  | cons kv rest ih => exact ih (isSome_set_mono kv.1 kv.2 h)

theorem isSome_setdefault_mono {d : List (String × Value)} {k' : String}
    (k : String) (w : Value) (h : (dictGet? d k').isSome = true) :
    (dictGet? (dictSetdefault d k w) k').isSome = true := by
  rw [dictGet?_setdefault]
  by_cases hk : k' = k <;> simp [hk, h]

theorem isSome_setdefault_self (d : List (String × Value)) (k : String)
    (w : Value) : (dictGet? (dictSetdefault d k w) k).isSome = true := by
  rw [dictGet?_setdefault]
  simp

theorem dictGet?_setdefault_of_some {d : List (String × Value)}
    {k' : String} {v : Value} (k : String) (w : Value)
    (h : dictGet? d k' = some v) :
    dictGet? (dictSetdefault d k w) k' = some v := by
  rw [dictGet?_setdefault]
  by_cases hk : k' = k
  · subst hk; simp [h]
  · simp [hk, h]

/-- Shared helper: in a successful `build_payload`, every override binding is
the final binding of its key (the override loop runs last, and the two
`setdefault` placeholders never displace an existing binding). -/
theorem build_payload_override_lookup {sid : ℤ} {ov p : List (String × Value)}
    {k : String} {v : Value} (hnd : (ov.map Prod.fst).Nodup)
    (hmem : (k, v) ∈ ov) (h : build_payload sid ov = Except.ok p) :
    dictGet? p k = some v := by
  unfold build_payload at h
  cases hd : get_scenario_defaults sid with
  | error e => rw [hd] at h; simp at h
  | ok defaults =>
    rw [hd] at h
    dsimp only at h
    split at h
    · rw [Except.ok.injEq] at h
      subst h
      exact dictGet?_setdefault_of_some _ _
        (dictGet?_setdefault_of_some _ _ (dictGet?_setAll_mem hnd hmem _))
    · simp at h

end WaveSolver

namespace WaveSolver

theorem isSome_set_self (d : List (String × Value)) (k : String) (v : Value) :
    (dictGet? (dictSet d k v) k).isSome = true := by
  rw [dictGet?_set]
  simp

/-- Claim C1: `compute_dt` returns `cfl * dx / c_max` exactly when the
scenario is the spatially-varying-speed one (scenario 3) and
`cfl * dx / wave_speed` for every other scenario; for a constant-speed
scenario with dx=0.01, cfl=0.9, wave_speed=1.0 the result is 0.009. -/
theorem compute_dt_cfl :
    (∀ (sid : ℤ) (dx cfl ws cm : ℚ),
        compute_dt sid dx cfl ws cm =
          if sid = 3 then (cfl * dx) / cm else (cfl * dx) / ws) ∧
    compute_dt 1 (1/100) (9/10) 1 1 = 9/1000 :=
  ⟨fun _ _ _ _ _ => rfl, by norm_num [compute_dt]⟩

/-- Claim C2: for every scenario id and overrides mapping, a record returned
by `build_payload` contains all of the keys `schema_version`, `output_type`,
`output_frequency`, `snapshot_freq`, `logging_enabled`, `c_profile` and
`gamma`, regardless of which override keys were supplied. -/
theorem build_payload_schema_stable (sid : ℤ) (ov p : List (String × Value))
    (h : build_payload sid ov = Except.ok p) :
    (["schema_version", "output_type", "output_frequency", "snapshot_freq",
      "logging_enabled", "c_profile", "gamma"].all
        (fun k => (dictGet? p k).isSome)) = true := by
  unfold build_payload at h
  cases hd : get_scenario_defaults sid with
  | error e => rw [hd] at h; simp at h
  | ok defaults =>
    rw [hd] at h
    dsimp only at h
    split at h
    · rw [Except.ok.injEq] at h
      subst h
      simp only [List.all_cons, List.all_nil, Bool.and_eq_true, and_true]
      refine ⟨?_, ?_, ?_, ?_, ?_, ?_, ?_⟩
      · exact isSome_setdefault_mono _ _ (isSome_setdefault_mono _ _
          (isSome_setAll_mono _ (isSome_set_mono _ _ (isSome_set_mono _ _
            (isSome_set_mono _ _ (isSome_set_mono _ _ (isSome_set_mono _ _
              (isSome_set_self _ _ _))))))))
      · exact isSome_setdefault_mono _ _ (isSome_setdefault_mono _ _
          (isSome_setAll_mono _ (isSome_set_mono _ _ (isSome_set_mono _ _
            (isSome_set_mono _ _ (isSome_set_mono _ _
              (isSome_set_self _ _ _)))))))
      · exact isSome_setdefault_mono _ _ (isSome_setdefault_mono _ _
          (isSome_setAll_mono _ (isSome_set_mono _ _ (isSome_set_mono _ _
            (isSome_set_mono _ _ (isSome_set_self _ _ _))))))
      · exact isSome_setdefault_mono _ _ (isSome_setdefault_mono _ _
          (isSome_setAll_mono _ (isSome_set_mono _ _ (isSome_set_mono _ _
            (isSome_set_self _ _ _)))))
      · exact isSome_setdefault_mono _ _ (isSome_setdefault_mono _ _
          (isSome_setAll_mono _ (isSome_set_mono _ _
            (isSome_set_self _ _ _))))
      · exact isSome_setdefault_self _ _ _
      · exact isSome_setdefault_mono _ _ (isSome_setdefault_self _ _ _)
    · simp at h

/-- Witness for C2 at scenario 2 with no overrides. -/
theorem build_payload_schema_stable_witness :
    payloadHasKeys (build_payload 2 [])
      ["schema_version", "output_type", "output_frequency", "snapshot_freq",
       "logging_enabled", "c_profile", "gamma"] = true := by
  cases hp : build_payload 2 [] with
  | ok p =>
    have h := build_payload_schema_stable 2 [] p hp
    simpa [payloadHasKeys, hp] using h
  | error e =>
    have hok : payloadIsOk (build_payload 2 []) = true := by decide
    rw [hp] at hok
    simp [payloadIsOk] at hok

/-- Claim C7 counterexample: the override key `to_dict` matches no
`ScenarioDefaults` field, yet `build_payload` rejects the overrides mapping
(`hasattr` admits the method name, and `dataclasses.replace` then raises
`TypeError`) instead of carrying the key through into a returned record. -/
theorem build_payload_to_dict_rejected :
    build_payload 1 [("to_dict", Value.int 5)] =
      Except.error PyErr.typeError := rfl

/-- Claim C7 (amended): an override whose key matches a known
`ScenarioDefaults` field is applied onto the defaults — the returned record
maps that field to the override value; an override key that matches no
attribute of the defaults object is carried through verbatim (same key,
same value) into the returned record; but an override key naming a
non-field attribute — the method `to_dict` — causes `build_payload` to fail
with `TypeError` for every defined scenario, rather than being carried
through. -/
theorem build_payload_override_handling :
    (∀ (sid : ℤ) (ov p : List (String × Value)) (k : String) (v : Value),
        (ov.map Prod.fst).Nodup → (k, v) ∈ ov →
        scenarioFieldNames.contains k = true →
        build_payload sid ov = Except.ok p → dictGet? p k = some v) ∧
    (∀ (sid : ℤ) (ov p : List (String × Value)) (k : String) (v : Value),
        (ov.map Prod.fst).Nodup → (k, v) ∈ ov →
        scenarioAttrNames.contains k = false →
        build_payload sid ov = Except.ok p → dictGet? p k = some v) ∧
    (∀ (sid : ℤ) (ov : List (String × Value)) (v : Value)
        (d : ScenarioDefaults),
        get_scenario_defaults sid = Except.ok d → ("to_dict", v) ∈ ov →
        build_payload sid ov = Except.error PyErr.typeError) := by
  refine ⟨?_, ?_, ?_⟩
  · intro sid ov p k v hnd hmem _ h
    exact build_payload_override_lookup hnd hmem h
  · intro sid ov p k v hnd hmem _ h
    exact build_payload_override_lookup hnd hmem h
  · intro sid ov v d hd hmem
    unfold build_payload
    rw [hd]
    dsimp only
    have hattr : scenarioAttrNames.contains (("to_dict" : String)) = true := by
      decide
    have hmemf : (("to_dict" : String), v) ∈
        ov.filter (fun kv => scenarioAttrNames.contains kv.1) :=
      List.mem_filter.mpr ⟨hmem, hattr⟩
    have hfail : ¬ ((ov.filter (fun kv => scenarioAttrNames.contains kv.1)).all
        (fun kv => scenarioFieldNames.contains kv.1) = true) := by
      intro hall
      have := List.all_eq_true.mp hall _ hmemf
      simp [scenarioFieldNames] at this
    rw [if_neg hfail]

/-- Witness for C7: a field-matching key (`cfl`) is applied onto the
defaults, an unknown key (`dt`) is carried through verbatim, and a
`to_dict` override is rejected. -/
theorem build_payload_override_handling_witness :
    payloadKeyValue (build_payload 1 [("cfl", Value.float (1/2))]) ("cfl") =
      some (Value.float (1/2)) ∧
    payloadKeyValue (build_payload 3 [("dt", Value.float (1/200))]) ("dt") =
      some (Value.float (1/200)) ∧
    build_payload 2 [("to_dict", Value.none)] =
      Except.error PyErr.typeError := by
  refine ⟨?_, ?_, ?_⟩
  · cases hp : build_payload 1 [("cfl", Value.float (1/2))] with
    | ok p =>
      have h := build_payload_override_handling.1 1
        [("cfl", Value.float (1/2))] p ("cfl") (Value.float (1/2))
        (by simp) (by simp) (by decide) hp
      simp [payloadKeyValue, hp, h]
    | error e =>
      have hok : payloadIsOk (build_payload 1 [("cfl", Value.float (1/2))]) =
          true := by decide
      rw [hp] at hok
      simp [payloadIsOk] at hok
  · cases hp : build_payload 3 [("dt", Value.float (1/200))] with
    | ok p =>
      have h := build_payload_override_handling.2.1 3
        [("dt", Value.float (1/200))] p ("dt") (Value.float (1/200))
        (by simp) (by simp) (by decide) hp
      simp [payloadKeyValue, hp, h]
    | error e =>
      have hok : payloadIsOk (build_payload 3 [("dt", Value.float (1/200))]) =
          true := by decide
      rw [hp] at hok
      simp [payloadIsOk] at hok
  · exact build_payload_override_handling.2.2 2 [("to_dict", Value.none)]
      Value.none defaults2 rfl (by simp)

/-- Claim C9: overrides take precedence over every defaulted or computed
field of `build_payload`: each key present in the overrides maps to exactly
the override value in the returned record — including `schema_version`,
whose override displaces the built-in "1.0.0". -/
theorem build_payload_overrides_take_precedence :
    (∀ (sid : ℤ) (ov p : List (String × Value)) (k : String) (v : Value),
        (ov.map Prod.fst).Nodup → (k, v) ∈ ov →
        build_payload sid ov = Except.ok p → dictGet? p k = some v) ∧
    payloadKeyValue (build_payload 1 [("schema_version", Value.str ("2.0.0"))])
        ("schema_version") = some (Value.str ("2.0.0")) := by
  constructor
  · intro sid ov p k v hnd hmem h
    exact build_payload_override_lookup hnd hmem h
  · decide

/-- Witness for C9 at scenario 4 with an `nx` override. -/
theorem build_payload_overrides_take_precedence_witness :
    payloadKeyValue (build_payload 4 [("nx", Value.int 50)]) ("nx") =
      some (Value.int 50) := by
  cases hp : build_payload 4 [("nx", Value.int 50)] with
  | ok p =>
    have h := build_payload_overrides_take_precedence.1 4
      [("nx", Value.int 50)] p ("nx") (Value.int 50) (by simp) (by simp) hp
    simp [payloadKeyValue, hp, h]
  | error e =>
    have hok : payloadIsOk (build_payload 4 [("nx", Value.int 50)]) = true := by
      decide
    rw [hp] at hok
    simp [payloadIsOk] at hok

end WaveSolver

namespace WaveSolver

/-- Claim C4 counterexample: on the equal-shape input pair of empty arrays,
`compute_error_metrics` does not return the metrics the claim promises for
equal-length inputs; it fails (with numpy's empty-reduction `ValueError`,
which is not the ShapeMismatch error either). -/
theorem error_metrics_empty_fails :
    compute_error_metrics [] [] = Except.error DiagErr.emptyReduction := rfl

/-- Claim C4 (amended): `compute_error_metrics` fails with ShapeMismatch
exactly when the lengths differ; for equal-length *non-empty* inputs it
returns l1 = mean |u-u_ref|, l2 = sqrt(mean (u-u_ref)^2), linf = max
|u-u_ref| (empty equal-length inputs instead hit numpy's empty-reduction
error); u=[1,2,3], u_ref=[1,2,4] yields l1=1/3, l2=sqrt(1/3)≈0.577, linf=1. -/
theorem error_metrics_spec :
    (∀ (u uRef : List ℚ),
        (compute_error_metrics u uRef = Except.error DiagErr.shapeMismatch ↔
          u.length ≠ uRef.length)) ∧
    (∀ (u uRef : List ℚ), u.length = uRef.length → u ≠ [] →
        compute_error_metrics u uRef =
          Except.ok
            { l1 := ((u.zip uRef).map (fun p => |p.1 - p.2|)).sum /
                      (u.length : ℚ)
            , l2 := Real.sqrt ((((((u.zip uRef).map
                        (fun p => |p.1 - p.2|)).map (fun d => d ^ 2)).sum /
                          (u.length : ℚ) : ℚ) : ℝ))
            , linf := maxList ((u.zip uRef).map (fun p => |p.1 - p.2|)) }) ∧
    compute_error_metrics [1, 2, 3] [1, 2, 4] =
      Except.ok { l1 := 1/3, l2 := Real.sqrt (1/3), linf := 1 } ∧
    (0.577 : ℝ) < Real.sqrt (1/3) ∧ Real.sqrt (1/3) < 0.578 := by
  refine ⟨?_, ?_, ?_, ?_, ?_⟩
  · intro u uRef
    unfold compute_error_metrics
    by_cases h : u.length = uRef.length
    · rw [if_neg (by simpa using h)]
      by_cases h0 : u.length = 0
      · rw [if_pos h0]
        simp [h]
      · rw [if_neg h0]
        simp [h]
    · rw [if_pos h]
      simp [h]
  · intro u uRef h h0
    unfold compute_error_metrics
    rw [if_neg (by simpa using h)]
    rw [if_neg (by simpa using h0)]
  · have hzip : ((([1, 2, 3] : List ℚ).zip ([1, 2, 4] : List ℚ)).map
        (fun p => |p.1 - p.2|)) = [0, 0, 1] := by
      norm_num [List.zip]
    unfold compute_error_metrics
    rw [if_neg (by norm_num)]
    rw [if_neg (by norm_num)]
    dsimp only
    rw [hzip]
    rw [Except.ok.injEq, ErrorMetrics.mk.injEq]
    refine ⟨by norm_num, ?_, by norm_num [maxList]⟩
    congr 1
    push_cast
    norm_num
  · rw [show ((0.577 : ℝ) < Real.sqrt (1/3)) ↔ (0.577:ℝ)^2 < 1/3 from
      Real.lt_sqrt (by norm_num)]
    norm_num
  · rw [Real.sqrt_lt' (by norm_num : (0:ℝ) < 0.578)]
    norm_num

/-- Witness for C4 at a length mismatch and at a non-empty equal-length
input. -/
theorem error_metrics_spec_witness :
    compute_error_metrics [1] [1, 2] = Except.error DiagErr.shapeMismatch ∧
    compute_error_metrics [2] [5] =
      Except.ok
        { l1 := (([(2:ℚ)].zip [(5:ℚ)]).map (fun p => |p.1 - p.2|)).sum /
                  (([(2:ℚ)].length) : ℚ)
        , l2 := Real.sqrt ((((((([(2:ℚ)].zip [(5:ℚ)]).map
                    (fun p => |p.1 - p.2|)).map (fun d => d ^ 2)).sum /
                      (([(2:ℚ)].length) : ℚ)) : ℚ) : ℝ))
        , linf := maxList (([(2:ℚ)].zip [(5:ℚ)]).map (fun p => |p.1 - p.2|)) } :=
  ⟨(error_metrics_spec.1 _ _).mpr (by norm_num),
   error_metrics_spec.2.1 [2] [5] rfl (by simp)⟩

/-- Claim C3 counterexample: with errors = [-5, 1, 2] (a non-positive error
in the sequence, but not among the last two) and step sizes [1, 2, 4],
`convergence_rate` does not fail as the claim requires: it returns the slope
(log 2 - log 1)/(log 4 - log 2) = 1. -/
theorem convergence_rate_ignores_early_nonpositive :
    convergence_rate [1, 2, 4] [-5, 1, 2] = Except.ok 1 := by
  have h4 : Real.log 4 = 2 * Real.log 2 := by
    rw [show (4:ℝ) = 2 ^ (2:ℕ) by norm_num]
    rw [Real.log_pow]
    norm_num
  have h2 : Real.log 2 ≠ 0 := ne_of_gt (Real.log_pos (by norm_num))
  unfold convergence_rate
  norm_num [List.getD]
  rw [h4]
  have hx : (2:ℝ) * Real.log 2 - Real.log 2 = Real.log 2 := by ring
  rw [hx, div_self h2]

/-- Claim C3 (amended): `convergence_rate` fails with the insufficient-data
error when either sequence has fewer than two entries, and with the
invalid-error kind when either of the *last two* errors is non-positive —
earlier non-positive errors are not checked; when the last two errors are
positive and the last two step sizes are positive and distinct, it returns
the local log-log slope (ln e2 - ln e1)/(ln h2 - ln h1) of the last two
samples. -/
theorem convergence_rate_spec :
    (∀ (dx errors : List ℚ), dx.length < 2 ∨ errors.length < 2 →
        convergence_rate dx errors = Except.error DiagErr.insufficientData) ∧
    (∀ (dx errors : List ℚ), 2 ≤ dx.length → 2 ≤ errors.length →
        (errors.getD (errors.length - 2) 0 ≤ 0 ∨
         errors.getD (errors.length - 1) 0 ≤ 0) →
        convergence_rate dx errors = Except.error DiagErr.invalidError) ∧
    (∀ (dx errors : List ℚ), 2 ≤ dx.length → 2 ≤ errors.length →
        0 < errors.getD (errors.length - 2) 0 →
        0 < errors.getD (errors.length - 1) 0 →
        0 < dx.getD (dx.length - 2) 0 →
        0 < dx.getD (dx.length - 1) 0 →
        dx.getD (dx.length - 2) 0 ≠ dx.getD (dx.length - 1) 0 →
        convergence_rate dx errors =
          Except.ok ((Real.log ((errors.getD (errors.length - 1) 0 : ℚ) : ℝ) -
                      Real.log ((errors.getD (errors.length - 2) 0 : ℚ) : ℝ)) /
                     (Real.log ((dx.getD (dx.length - 1) 0 : ℚ) : ℝ) -
                      Real.log ((dx.getD (dx.length - 2) 0 : ℚ) : ℝ)))) := by
  refine ⟨?_, ?_, ?_⟩
  · intro dx errors h
    unfold convergence_rate
    rw [if_pos h]
  · intro dx errors h1 h2 h3
    unfold convergence_rate
    rw [if_neg (by omega)]
    dsimp only
    rw [if_pos h3]
  · intro dx errors h1 h2 he1 he2 hx1 hx2 hne
    unfold convergence_rate
    rw [if_neg (by omega)]
    dsimp only
    rw [if_neg (by push_neg; exact ⟨he1, he2⟩)]
    rw [if_neg (by push_neg; exact ⟨hx1, hx2⟩)]
    rw [if_neg hne]

/-- Witness for C3 at the three branches. -/
theorem convergence_rate_spec_witness :
    convergence_rate [1] [1] = Except.error DiagErr.insufficientData ∧
    convergence_rate [1, 2] [0, 1] = Except.error DiagErr.invalidError ∧
    convergence_rate [1, 2] [1, 2] =
      Except.ok ((Real.log ((([(1:ℚ), 2].getD (([(1:ℚ), 2].length) - 1) 0 : ℚ)) : ℝ) -
                  Real.log ((([(1:ℚ), 2].getD (([(1:ℚ), 2].length) - 2) 0 : ℚ)) : ℝ)) /
                 (Real.log ((([(1:ℚ), 2].getD (([(1:ℚ), 2].length) - 1) 0 : ℚ)) : ℝ) -
                  Real.log ((([(1:ℚ), 2].getD (([(1:ℚ), 2].length) - 2) 0 : ℚ)) : ℝ))) := by
  refine ⟨convergence_rate_spec.1 _ _ (by norm_num), ?_, ?_⟩
  · refine convergence_rate_spec.2.1 [1, 2] [0, 1] (by norm_num) (by norm_num) ?_
    left
    norm_num [List.getD]
  · exact convergence_rate_spec.2.2 [1, 2] [1, 2] (by norm_num) (by norm_num)
      (by norm_num [List.getD]) (by norm_num [List.getD])
      (by norm_num [List.getD]) (by norm_num [List.getD])
      (by norm_num [List.getD])

end WaveSolver

namespace WaveSolver

/-- Claim C10: a falsy scenario id is treated as absent: a parameter
dictionary with `scenario_id = 0` and no `scenario` key makes scenario
extraction (and hence `run_solver`) raise the "scenario_id is required"
error, not the "no executable configured for scenario 0" error; and the
`scenario` key is accepted as an alias exactly when `scenario_id` is missing
or falsy. -/
theorem extract_scenario_falsy :
    extract_scenario_id [("scenario_id", Value.int 0)] =
      Except.error RunError.scenarioRequired ∧
    (∀ (pyStr : Value → List Char) (fmt : Value → Option (List Char))
        (em : Option (List (ℤ × List Char))) (eo : Option (List Char))
        (ts : List Char) (resolve : ResolveOutcome) (proc : ProcResult)
        (produced : List (List Char)),
        run_solver pyStr fmt [("scenario_id", Value.int 0)] em eo ts resolve
          proc produced = Except.error RunError.scenarioRequired) ∧
    (∀ (params : List (String × Value)),
        pyTruthy (dictGetV params ("scenario_id")) = false →
        extract_scenario_id params =
          (match dictGetV params ("scenario") with
           | Value.none => Except.error RunError.scenarioRequired
           | v => pyToInt v)) ∧
    extract_scenario_id
        [("scenario_id", Value.int 0), ("scenario", Value.int 4)] =
      Except.ok 4 := by
  refine ⟨rfl, fun _ _ _ _ _ _ _ _ => rfl, ?_, rfl⟩
  intro params h
  unfold extract_scenario_id pyOrV
  rw [h]
  simp

/-- Witness for C10's universally quantified parts. -/
theorem extract_scenario_falsy_witness :
    run_solver pyStrEx fmtEx [("scenario_id", Value.int 0)] Option.none
        Option.none [] (ResolveOutcome.ok []) ⟨0, [], []⟩ [] =
      Except.error RunError.scenarioRequired ∧
    extract_scenario_id
        [("scenario_id", Value.bool false), ("scenario", Value.int 2)] =
      (match dictGetV
          [("scenario_id", Value.bool false), ("scenario", Value.int 2)]
          ("scenario") with
       | Value.none => Except.error RunError.scenarioRequired
       | v => pyToInt v) :=
  ⟨extract_scenario_falsy.2.1 pyStrEx fmtEx Option.none Option.none []
      (ResolveOutcome.ok []) ⟨0, [], []⟩ [],
   extract_scenario_falsy.2.2.1 _ (by decide)⟩

/-- Claim C5: once the solver process is invoked (scenario extracted,
executable selected, resolution succeeded), `run_solver` fails iff the
process exits non-zero, with no retry; the failure carries the captured
stdout and stderr (embedded in the RuntimeError message) together with the
attempted command line (on the chained `CalledProcessError` cause, which
also carries the streams); on exit code 0 it returns the success record
containing the captured stdout/stderr and the run directory. -/
theorem run_solver_exit_contract
    (pyStr : Value → List Char) (fmt : Value → Option (List Char))
    (params : List (String × Value)) (em : Option (List (ℤ × List Char)))
    (eo : Option (List Char)) (ts : List Char) (solverPath : List Char)
    (proc : ProcResult) (produced : List (List Char)) (sid : ℤ)
    (exe : List Char)
    (hsid : extract_scenario_id params = Except.ok sid)
    (hexe : selectExecutable em eo sid = some exe) :
    (runIsOk (run_solver pyStr fmt params em eo ts
        (ResolveOutcome.ok solverPath) proc produced) = true ↔
      proc.exitCode = 0) ∧
    (proc.exitCode ≠ 0 →
      run_solver pyStr fmt params em eo ts (ResolveOutcome.ok solverPath)
          proc produced =
        Except.error (RunError.processFailure proc.stdout proc.stderr
          { cmd := [solverPath,
              inputPathOf (runDirOf (build_run_label pyStr fmt params) ts)],
            returncode := proc.exitCode, stdout := proc.stdout,
            stderr := proc.stderr })) ∧
    (proc.exitCode = 0 →
      run_solver pyStr fmt params em eo ts (ResolveOutcome.ok solverPath)
          proc produced =
        Except.ok
          { status := successChars, schema_version := schemaVersionChars,
            run_label := build_run_label pyStr fmt params,
            input_path :=
              inputPathOf (runDirOf (build_run_label pyStr fmt params) ts),
            run_dir := runDirOf (build_run_label pyStr fmt params) ts,
            stdout := proc.stdout, stderr := proc.stderr,
            artifacts := renameRunOutputs (build_run_label pyStr fmt params)
              produced }) := by
  unfold run_solver
  rw [hsid]
  dsimp only
  rw [hexe]
  dsimp only
  by_cases h0 : proc.exitCode = 0
  · rw [if_neg (fun hh => hh h0)]
    exact ⟨by simp [runIsOk, h0], fun hne => absurd h0 hne, fun _ => rfl⟩
  · rw [if_pos h0]
    exact ⟨by simp [runIsOk, h0], fun _ => rfl, fun heq => absurd heq h0⟩

/-- Witness for C5: a zero exit code yields a success result. -/
theorem run_solver_exit_contract_witness :
    runIsOk (run_solver pyStrEx fmtEx [("scenario_id", Value.int 1)]
        Option.none Option.none [] (ResolveOutcome.ok []) ⟨0, [], []⟩ []) =
      true := by
  have h := run_solver_exit_contract pyStrEx fmtEx
      [("scenario_id", Value.int 1)] Option.none Option.none [] []
      ⟨0, [], []⟩ [] 1 (("solver_dirichlet.exe").toList)
      rfl rfl
  exact h.1.mpr rfl

end WaveSolver

namespace WaveSolver

/-! ### Sanitizer lemmas -/

theorem collapse_mem : ∀ (s : List Char), ∀ c ∈ collapseDashes s, c ∈ s := by
  intro s
  induction s with
  | nil => intro c hc; cases hc
  | cons a rest ih =>
    cases rest with
    | nil => intro c hc; simpa [collapseDashes] using hc
    | cons b r2 =>
      intro c hc
      simp only [collapseDashes] at hc
      by_cases hab : a = '-' ∧ b = '-'
      · rw [if_pos hab] at hc
        exact List.mem_cons_of_mem a (ih c hc)
      · rw [if_neg hab] at hc
        rcases List.mem_cons.mp hc with h | h
        · exact h ▸ List.mem_cons_self a _
        · exact List.mem_cons_of_mem a (ih c h)

theorem collapse_head_ne {a : Char} (l : List Char) (h : ¬ a = '-') :
    (collapseDashes (a :: l)).head? = some a := by
  cases l with
  | nil => rfl
  | cons b r =>
    simp only [collapseDashes]
    rw [if_neg (fun hh => h hh.1)]
    rfl

theorem noDD_cons_of {a : Char} {l : List Char} (h : noDoubleDash l = true)
    (hhead : ∀ b, l.head? = some b → (a == '-' && b == '-') = false) :
    noDoubleDash (a :: l) = true := by
  cases l with
  | nil => rfl
  | cons b t =>
    simp only [noDoubleDash, Bool.and_eq_true]
    rw [hhead b rfl]
    simpa using h

theorem noDD_collapse : ∀ (s : List Char),
    noDoubleDash (collapseDashes s) = true := by
  intro s
  induction s with
  | nil => rfl
  | cons a rest ih =>
    cases rest with
    | nil => rfl
    | cons b r2 =>
      simp only [collapseDashes]
      by_cases hab : a = '-' ∧ b = '-'
      · rw [if_pos hab]; exact ih
      · rw [if_neg hab]
        refine noDD_cons_of ih ?_
        intro c hc
        by_cases hb : b = '-'
        · have ha : ¬ a = '-' := fun haa => hab ⟨haa, hb⟩
          have h1 : (a == '-') = false := beq_eq_false_iff_ne.mpr ha
          simp [h1]
        · rw [collapse_head_ne r2 hb] at hc
          have hcb : c = b := by
            injection hc with hc'
            exact hc'.symm
          subst hcb
          have h1 : (c == '-') = false := beq_eq_false_iff_ne.mpr hb
          simp [h1]

theorem noDD_tail {a : Char} {l : List Char}
    (h : noDoubleDash (a :: l) = true) : noDoubleDash l = true := by
  cases l with
  | nil => rfl
  | cons b t =>
    simp only [noDoubleDash, Bool.and_eq_true] at h
    exact h.2

theorem noDD_append_right : ∀ (s l : List Char),
    noDoubleDash (s ++ l) = true → noDoubleDash l = true := by
  intro s
  induction s with
  | nil => intro l h; exact h
  | cons x s' ih => intro l h; exact ih l (noDD_tail h)

theorem noDD_append_left : ∀ (l t : List Char),
    noDoubleDash (l ++ t) = true → noDoubleDash l = true := by
  intro l t
  induction l with
  | nil => intro _; rfl
  | cons a rest ih =>
    cases rest with
    | nil => intro _; rfl
    | cons b r2 =>
      intro h
      simp only [List.cons_append, noDoubleDash, Bool.and_eq_true] at h ⊢
      exact ⟨h.1, ih h.2⟩

theorem stripDashes_within (s : List Char) : stripDashes s <:+: s := by
  have h1 : s.dropWhile (fun c => c == '-') <:+ s := List.dropWhile_suffix _
  have h3 : (s.dropWhile (fun c => c == '-')).reverse.dropWhile
      (fun c => c == '-') <:+ (s.dropWhile (fun c => c == '-')).reverse :=
    List.dropWhile_suffix _
  have h2 : stripDashes s <+: s.dropWhile (fun c => c == '-') := by
    unfold stripDashes
    have := List.reverse_prefix.mpr h3
    simpa using this
  obtain ⟨t1, ht1⟩ := h2
  obtain ⟨t2, ht2⟩ := h1
  refine ⟨t2, t1, ?_⟩
  rw [List.append_assoc, ht1, ht2]

theorem subBad_mem : ∀ (s : List Char), ∀ c ∈ subBad s,
    isLabelChar c = true := by
  intro s c hc
  obtain ⟨x, _, hx⟩ := List.mem_map.mp hc
  by_cases h : isLabelChar x = true
  · rw [if_pos h] at hx; rw [← hx]; exact h
  · rw [if_neg h] at hx; rw [← hx]; decide

/-- The three claimed shape properties of every sanitized token: non-empty,
characters in `[A-Za-z0-9_-]`, and no two adjacent hyphens. -/
theorem sanitize_token_props (s : List Char) :
    (sanitize_token s).isEmpty = false ∧
    (sanitize_token s).all isLabelChar = true ∧
    noDoubleDash (sanitize_token s) = true := by
  unfold sanitize_token
  by_cases ht : stripDashes (collapseDashes (subBad s)) = []
  · rw [if_pos ht]
    exact ⟨by decide, by decide, by decide⟩
  · rw [if_neg ht]
    obtain ⟨u1, u2, hu⟩ := stripDashes_within (collapseDashes (subBad s))
    refine ⟨?_, ?_, ?_⟩
    · cases hcase : stripDashes (collapseDashes (subBad s)) with
      | nil => exact absurd hcase ht
      | cons x xs => rfl
    · rw [List.all_eq_true]
      intro c hc
      have hc2 : c ∈ collapseDashes (subBad s) := by
        rw [← hu]
        exact List.mem_append.mpr (Or.inl (List.mem_append.mpr (Or.inr hc)))
      exact subBad_mem s c (collapse_mem _ c hc2)
    · have hdd : noDoubleDash (collapseDashes (subBad s)) = true :=
        noDD_collapse (subBad s)
      rw [← hu, List.append_assoc] at hdd
      exact noDD_append_left _ _ (noDD_append_right _ _ hdd)

/-- Claim C8: for every parameter dictionary (and any str()/%.4g rendering),
the derived run label is non-empty, consists only of `[A-Za-z0-9_-]`
characters with no two adjacent hyphen separators, defaults to "run" when
nothing remains (e.g. an empty parameter dictionary), and renders the dx/dt
numeric tokens with '.' as 'p' and '-' as 'm': the example parameters give
the label "s1-dx0p01-dtm0p015". -/
theorem build_run_label_props :
    (∀ (pyStr : Value → List Char) (fmt : Value → Option (List Char))
        (params : List (String × Value)),
        (build_run_label pyStr fmt params).isEmpty = false ∧
        (build_run_label pyStr fmt params).all isLabelChar = true ∧
        noDoubleDash (build_run_label pyStr fmt params) = true) ∧
    (∀ (pyStr : Value → List Char) (fmt : Value → Option (List Char)),
        build_run_label pyStr fmt [] = runToken) ∧
    build_run_label pyStrEx fmtEx
        [("scenario_id", Value.int 1), ("dx", Value.float qDx),
         ("dt", Value.float qDt)] = ("s1-dx0p01-dtm0p015").toList := by
  refine ⟨?_, ?_, ?_⟩
  · intro pyStr fmt params
    exact sanitize_token_props _
  · intro pyStr fmt
    rfl
  · decide

end WaveSolver

namespace WaveSolver

/-! ### Artifact-renaming lemmas -/

/-- Two prefixes of one name, `label ++ "_"` and `"snapshot_"`, are impossible
when `"snapshot_"` is not a prefix of `label ++ "_"`: the shorter would be a
prefix of the longer, and every proper prefix of `"snapshot_"` ending in an
underscore would put an underscore into `"snapshot"`. -/
theorem prefix_underscore_snapshot {label f : List Char}
    (H : ¬ snapPre <+: label ++ [('_' : Char)])
    (hpf : (label ++ [('_' : Char)]) <+: f) (hsp : snapPre <+: f) : False := by
  rcases le_or_lt snapPre.length (label ++ [('_' : Char)]).length with hle | hlt
  · exact H (List.prefix_of_prefix_length_le hsp hpf hle)
  · have ha : (label ++ [('_' : Char)]) <+: snapPre :=
      List.prefix_of_prefix_length_le hpf hsp (le_of_lt hlt)
    have h9 : snapPre.length = 9 := rfl
    have hlen : (label ++ [('_' : Char)]).length ≤ 8 := by omega
    have hsnap : snapPre = ("snapshot").toList ++ [('_' : Char)] := rfl
    rw [hsnap] at ha
    have htake := List.prefix_iff_eq_take.mp ha
    rw [List.take_append_of_le_length
      (by simpa using hlen : (label ++ [('_' : Char)]).length ≤
        (("snapshot").toList).length)] at htake
    have hpre2 : (label ++ [('_' : Char)]) <+: ("snapshot").toList := by
      rw [htake]; exact List.take_prefix _ _
    have hmem : ('_' : Char) ∈ ("snapshot").toList :=
      hpre2.sublist.subset (by simp)
    exact absurd hmem (by decide)

theorem snapRename_id_of_not_glob {label f : List Char}
    (h : globSnapshot f = false) : snapRename label f = f := by
  simp [snapRename, h]

theorem snapTarget_startsWithLabelMid (label f : List Char) :
    (label ++ snapMid) <+: snapTarget label f := by
  unfold snapTarget
  exact ((List.prefix_append _ _).trans (List.prefix_append _ _))

theorem snapRename_target_fixed (label f : List Char) :
    snapRename label (snapTarget label f) = snapTarget label f := by
  by_cases hg : globSnapshot (snapTarget label f) = true
  · have hb : (label ++ snapMid).isPrefixOf (snapTarget label f) = true :=
      List.isPrefixOf_iff_prefix.mpr (snapTarget_startsWithLabelMid label f)
    simp [snapRename, hg, hb]
  · exact snapRename_id_of_not_glob (by simpa using hg)

theorem snapRename_idem (label f : List Char) :
    snapRename label (snapRename label f) = snapRename label f := by
  by_cases hg : globSnapshot f = true
  · by_cases hp : (label ++ snapMid).isPrefixOf f = true
    · have h1 : snapRename label f = f := by simp [snapRename, hg, hp]
      rw [h1, h1]
    · have h1 : snapRename label f = snapTarget label f := by
        simp [snapRename, hg, hp]
      rw [h1]
      exact snapRename_target_fixed label f
  · have h1 : snapRename label f = f :=
      snapRename_id_of_not_glob (by simpa using hg)
    rw [h1, h1]

theorem snapRename_energy_target {label : List Char}
    (H : ¬ snapPre <+: label ++ [('_' : Char)]) :
    snapRename label (label ++ energyTail) = label ++ energyTail := by
  apply snapRename_id_of_not_glob
  cases hpre : snapPre.isPrefixOf (label ++ energyTail) with
  | false => simp [globSnapshot, hpre]
  | true =>
    exfalso
    have hp : snapPre <+: label ++ energyTail :=
      List.isPrefixOf_iff_prefix.mp hpre
    have hsplit : label ++ energyTail =
        (label ++ [('_' : Char)]) ++ ("energy.csv").toList := by
      rw [List.append_assoc]
      rfl
    rw [hsplit] at hp
    exact prefix_underscore_snapshot H (List.prefix_append _ _) hp

theorem snapRename_id_of_labeled {label f : List Char}
    (H : ¬ snapPre <+: label ++ [('_' : Char)])
    (hpf : (label ++ [('_' : Char)]) <+: f) : snapRename label f = f := by
  apply snapRename_id_of_not_glob
  cases hg : snapPre.isPrefixOf f with
  | false => simp [globSnapshot, hg]
  | true =>
    exfalso
    exact prefix_underscore_snapshot H hpf (List.isPrefixOf_iff_prefix.mp hg)

theorem energyTail_ne_energy (label : List Char) :
    label ++ energyTail ≠ energyName := by
  intro heq
  have hlen := congrArg List.length heq
  have h1 : energyTail.length = 11 := rfl
  have h2 : energyName.length = 10 := rfl
  rw [List.length_append] at hlen
  omega

theorem energySubst_ne_energy (label y : List Char) :
    energySubst label y ≠ energyName := by
  unfold energySubst
  by_cases hy : y = energyName
  · rw [if_pos hy]
    exact energyTail_ne_energy label
  · rw [if_neg hy]
    exact hy

theorem snap_subst_snap {label : List Char}
    (H : ¬ snapPre <+: label ++ [('_' : Char)]) (f : List Char) :
    snapRename label (energySubst label (snapRename label f)) =
      energySubst label (snapRename label f) := by
  by_cases he : snapRename label f = energyName
  · rw [he]
    unfold energySubst
    rw [if_pos rfl]
    exact snapRename_energy_target H
  · unfold energySubst
    rw [if_neg he]
    exact snapRename_idem label f

/-- Claim C6 counterexample: with run label "snapshot", renaming the single
file "energy.csv" once gives "snapshot_energy.csv", and renaming a second
time gives "snapshot_snapshot_energy.csv": the operation is not idempotent
for every run label, and a file carrying the run-label prefix
("snapshot_energy.csv" carries "snapshot_") is not left untouched. -/
theorem rename_not_idempotent :
    renameRunOutputs (("snapshot").toList)
        (renameRunOutputs (("snapshot").toList) [("energy.csv").toList]) ≠
      renameRunOutputs (("snapshot").toList) [("energy.csv").toList] := by
  decide

/-- Claim C6 (amended): for every run label that does not make
`label ++ "_"` begin with `"snapshot_"` (i.e. the label is neither
"snapshot" nor starts with "snapshot_" — every label the runner derives in
practice), artifact renaming is idempotent, and any file already carrying
the `label ++ "_"` prefix is left untouched at its position. -/
theorem rename_run_outputs_idempotent (label : List Char)
    (files : List (List Char))
    (H : snapPre.isPrefixOf (label ++ [('_' : Char)]) = false) :
    renameRunOutputs label (renameRunOutputs label files) =
      renameRunOutputs label files ∧
    (∀ (i : ℕ) (f : List Char), files[i]? = some f →
        (label ++ [('_' : Char)]).isPrefixOf f = true →
        (renameRunOutputs label files)[i]? = some f) := by
  have Hp : ¬ snapPre <+: label ++ [('_' : Char)] := by
    intro hp
    rw [← List.isPrefixOf_iff_prefix, H] at hp
    cases hp
  constructor
  · show energyPass label ((energyPass label
        (files.map (snapRename label))).map (snapRename label)) =
      energyPass label (files.map (snapRename label))
    by_cases hc : ((files.map (snapRename label)).any
        (fun f => decide (f = energyName)) &&
        !(label.isPrefixOf energyName)) = true
    · have hB : energyPass label (files.map (snapRename label)) =
          (files.map (snapRename label)).map (energySubst label) := by
        unfold energyPass
        rw [if_pos hc]
      rw [hB]
      have hmap : ((files.map (snapRename label)).map
          (energySubst label)).map (snapRename label) =
          (files.map (snapRename label)).map (energySubst label) := by
        rw [List.map_map, List.map_map, List.map_map]
        apply List.map_congr_left
        intro f _
        exact snap_subst_snap Hp f
      rw [hmap]
      have hany : (((files.map (snapRename label)).map
          (energySubst label)).any (fun f => decide (f = energyName))) =
          false := by
        rw [List.any_eq_false]
        intro x hx
        obtain ⟨y, _, hy⟩ := List.mem_map.mp hx
        simp only [decide_eq_true_eq]
        rw [← hy]
        exact energySubst_ne_energy label y
      unfold energyPass
      rw [if_neg (by rw [hany]; simp)]
    · have hB : energyPass label (files.map (snapRename label)) =
          files.map (snapRename label) := by
        unfold energyPass
        rw [if_neg hc]
      rw [hB]
      have hmap : (files.map (snapRename label)).map (snapRename label) =
          files.map (snapRename label) := by
        rw [List.map_map]
        apply List.map_congr_left
        intro f _
        exact snapRename_idem label f
      rw [hmap, hB]
  · intro i f hi hpf
    have hpfP : (label ++ [('_' : Char)]) <+: f :=
      List.isPrefixOf_iff_prefix.mp hpf
    have hsnap : snapRename label f = f := snapRename_id_of_labeled Hp hpfP
    have hA : (files.map (snapRename label))[i]? = some f := by
      rw [List.getElem?_map, hi, Option.map_some', hsnap]
    show (energyPass label (files.map (snapRename label)))[i]? = some f
    by_cases hc : ((files.map (snapRename label)).any
        (fun f => decide (f = energyName)) &&
        !(label.isPrefixOf energyName)) = true
    · have hfne : f ≠ energyName := by
        intro hfe
        have hlp : label <+: energyName := by
          rw [← hfe]
          exact (List.prefix_append label [('_' : Char)]).trans hpfP
        have : label.isPrefixOf energyName = true :=
          List.isPrefixOf_iff_prefix.mpr hlp
        rw [this] at hc
        simp at hc
      unfold energyPass
      rw [if_pos hc, List.getElem?_map, hA]
      show some (energySubst label f) = some f
      unfold energySubst
      rw [if_neg hfne]
    · unfold energyPass
      rw [if_neg hc]
      exact hA

/-- Witness for C6 with label "run" over a realistic run directory. -/
theorem rename_run_outputs_idempotent_witness :
    (renameRunOutputs (("run").toList)
        (renameRunOutputs (("run").toList)
          [("snapshot_10.csv").toList, ("run_snapshot_7.csv").toList,
           ("energy.csv").toList, ("input.json").toList]) =
      renameRunOutputs (("run").toList)
        [("snapshot_10.csv").toList, ("run_snapshot_7.csv").toList,
         ("energy.csv").toList, ("input.json").toList]) ∧
    (renameRunOutputs (("run").toList)
        [("snapshot_10.csv").toList, ("run_snapshot_7.csv").toList,
         ("energy.csv").toList, ("input.json").toList])[1]? =
      some (("run_snapshot_7.csv").toList) := by
  have h := rename_run_outputs_idempotent (("run").toList)
    [("snapshot_10.csv").toList, ("run_snapshot_7.csv").toList,
     ("energy.csv").toList, ("input.json").toList] (by decide)
  exact ⟨h.1, h.2 1 (("run_snapshot_7.csv").toList) (by decide) (by decide)⟩

end WaveSolver
